import Mathlib

/-!
Verification of the machine-state reconciliation core of the LoadLink
laundry-tracking service.

The embedding follows `src/core/database.py` (the `Machine` peewee model:
its `save`, `create` and `claim` methods) and `src/discord_bot.py`
(`RoomSelect.__init__`, the pagination of the room-selection menu).

The MySQL table backing the `Machine` model is embedded as a list of rows
(`List MachineRecord`); peewee's `get_or_none` is the first matching row,
`create` appends a row, and `update().where()` maps over all matching rows.
A raised Python exception is an `Except.error` result, and since `claim`
has no handler the store state at the moment of the raise is returned
alongside it.
-/

set_option autoImplicit false

deriving instance DecidableEq for Except

/-- A snapshot payload: the `data` dictionary handed to `Machine.claim`.
It carries one value for every mutable column of the `Machine` table
(the ingestion source sends a complete replacement, never a partial patch).
Nullable columns (`null=True` in the model) are `Option`s.  The Python
attribute `type` is called `machineType` here because `type` is reserved
in Lean. -/
structure Snapshot where
  available : Bool
  capability_addTime : Bool
  capability_showAddTimeNotice : Bool
  capability_showSettings : Bool
  controllerType : String
  display : Option String
  doorClosed : Bool
  freePlay : Bool
  groupId : Option String
  inService : Option Bool
  licensePlate : String
  locationId : String
  mode : String
  nfcId : String
  notAvailableReason : Option String
  opaqueId : String
  qrCodeId : String
  roomId : String
  settings_cycle : String
  settings_dryerTemp : Option String
  settings_soil : String
  settings_washerTemp : Option String
  stackItems : Option String
  stickerNumber : Int
  timeRemaining : Int
  machineType : String
  lastUser : String
  deriving DecidableEq

/-- A stored row of the `Machine` table: every column of the model,
including the bookkeeping columns `lastUpdated` (a timestamp, embedded
as a `Nat`) and `lastUser` (`CharField(null=True)`, hence an
`Option String`). -/
structure MachineRecord where
  available : Bool
  capability_addTime : Bool
  capability_showAddTimeNotice : Bool
  capability_showSettings : Bool
  controllerType : String
  display : Option String
  doorClosed : Bool
  freePlay : Bool
  groupId : Option String
  inService : Option Bool
  licensePlate : String
  locationId : String
  mode : String
  nfcId : String
  notAvailableReason : Option String
  opaqueId : String
  qrCodeId : String
  roomId : String
  settings_cycle : String
  settings_dryerTemp : Option String
  settings_soil : String
  settings_washerTemp : Option String
  stackItems : Option String
  stickerNumber : Int
  timeRemaining : Int
  machineType : String
  lastUpdated : Nat
  lastUser : Option String
  deriving DecidableEq

/-- Builds the row written by `cls.create(**data)` or set by
`cls.update(**data)` after `claim` has put `lastUpdated` (and possibly
`lastUser`) into the dictionary: every column comes verbatim from the
snapshot, except the two bookkeeping columns passed explicitly. -/
def Snapshot.toRecord (data : Snapshot) (lastUpdated : Nat)
    (lastUser : Option String) : MachineRecord where
  available := data.available
  capability_addTime := data.capability_addTime
  capability_showAddTimeNotice := data.capability_showAddTimeNotice
  capability_showSettings := data.capability_showSettings
  controllerType := data.controllerType
  display := data.display
  doorClosed := data.doorClosed
  freePlay := data.freePlay
  groupId := data.groupId
  inService := data.inService
  licensePlate := data.licensePlate
  locationId := data.locationId
  mode := data.mode
  nfcId := data.nfcId
  notAvailableReason := data.notAvailableReason
  opaqueId := data.opaqueId
  qrCodeId := data.qrCodeId
  roomId := data.roomId
  settings_cycle := data.settings_cycle
  settings_dryerTemp := data.settings_dryerTemp
  settings_soil := data.settings_soil
  settings_washerTemp := data.settings_washerTemp
  stackItems := data.stackItems
  stickerNumber := data.stickerNumber
  timeRemaining := data.timeRemaining
  machineType := data.machineType
  lastUpdated := lastUpdated
  lastUser := lastUser

namespace Machine

/-- `Machine.save` (database.py lines 140-143): raise
`ValueError("timeRemaining cannot be negative")` when the row carries a
negative `timeRemaining`, otherwise hand the row to the ORM write. -/
def save (r : MachineRecord) : Except String MachineRecord :=
  if r.timeRemaining < 0 then Except.error "timeRemaining cannot be negative"
  else Except.ok r

/-- The pre-write validation of `Machine.create` (database.py line 147):
`query.get("timeRemaining", 0) < 0`.  The argument is the value found
under the `timeRemaining` key of the keyword dictionary, `none` when the
key is absent (in which case `.get` falls back to `0`). -/
def createCheck (timeRemaining : Option Int) : Bool :=
  decide (timeRemaining.getD 0 < 0)

/-- `Machine.claim` (database.py lines 151-167) against a store `store`
at wall-clock time `now`:
* look up the first row whose `opaqueId` equals `data.get("opaqueId")`;
* no row: put `lastUpdated := now` and `lastUser := "Unknown"` into the
  dictionary and `create` it — the `create` validation may raise, which
  leaves the store untouched, otherwise the row is appended — return
  `True`;
* a row exists and `data["timeRemaining"] != existing.timeRemaining`:
  put `lastUpdated := now` into the dictionary, overwrite its
  `lastUser` with `"Unknown"` when the rise exceeds 5, and run
  `update(**data).where(opaqueId == opaque_id)`, which rewrites every
  matching row from the dictionary (bypassing `save`/`create`), return
  `True`;
* otherwise return `False` without touching the store.
The result pairs the store after the call with the returned Boolean or
the propagated exception. -/
def claim (store : List MachineRecord) (data : Snapshot) (now : Nat) :
    List MachineRecord × Except String Bool :=
  let opaque_id := data.opaqueId
  match store.find? (fun r => r.opaqueId == opaque_id) with
  | none =>
      if createCheck (some data.timeRemaining) then
        (store, Except.error "timeRemaining cannot be negative")
      else
        (store ++ [data.toRecord now (some "Unknown")], Except.ok true)
  | some existing =>
      if data.timeRemaining != existing.timeRemaining then
        let lastUser : String :=
          if data.timeRemaining - existing.timeRemaining > 5 then "Unknown"
          else data.lastUser
        (store.map (fun r =>
            if r.opaqueId == opaque_id then data.toRecord now (some lastUser)
            else r),
         Except.ok true)
      else
        (store, Except.ok false)

end Machine

/-- A row of the room directory as the select menu consumes it:
`Room.select().order_by(Room.label)` yields rows, of which
`RoomSelect.__init__` reads `label` and `roomId`. -/
structure RoomRow where
  roomId : String
  label : String
  deriving DecidableEq

/-- A `discord.SelectOption` as built by `RoomSelect.__init__`: a label
and a value. -/
structure SelectOption where
  label : String
  value : String
  deriving DecidableEq

/-- The state `RoomSelect.__init__` (discord_bot.py lines 27-60) leaves
on the widget, minus the Discord plumbing. -/
structure RoomSelectState where
  total_pages : Nat
  current_page : Int
  room_map : List (String × String)
  options : List SelectOption
  placeholder : String
  disabled : Bool
  deriving DecidableEq

/-- `RoomSelect.__init__` for a given directory content `rooms` (the
result of `Room.select().order_by(Room.label)`) and requested page
number `page` (any integer). Python's `rooms[start_idx:end_idx]` with
non-negative bounds is drop-then-take. -/
def RoomSelect.initState (rooms : List RoomRow) (page : Int) : RoomSelectState :=
  let page_size : Nat := 25
  let total_pages : Nat := max ((rooms.length + page_size - 1) / page_size) 1
  let current_page : Int := max 0 (min page ((total_pages : Int) - 1))
  let start_idx : Int := current_page * (page_size : Int)
  let page_rooms : List RoomRow := (rooms.drop start_idx.toNat).take page_size
  let options : List SelectOption :=
    if page_rooms.isEmpty then [⟨"No rooms available", "none"⟩]
    else page_rooms.map (fun room => ⟨room.label, room.roomId⟩)
  { total_pages := total_pages
    current_page := current_page
    room_map := page_rooms.map (fun room => (room.roomId, room.label))
    options := options
    placeholder :=
      s!"Choose a laundry room (Page {current_page + 1}/{total_pages})..."
    disabled := page_rooms.isEmpty }

/-- A fixed snapshot used for concrete runs: washer `W1` with every
operational attribute at a definite value. -/
def baseSnap : Snapshot where
  available := true
  capability_addTime := false
  capability_showAddTimeNotice := false
  capability_showSettings := true
  controllerType := "quantum"
  display := some "READY"
  doorClosed := true
  freePlay := false
  groupId := none
  inService := some true
  licensePlate := "LP-1"
  locationId := "L1"
  mode := "idle"
  nfcId := "NFC-1"
  notAvailableReason := some ""
  opaqueId := "W1"
  qrCodeId := "QR-1"
  roomId := "R1"
  settings_cycle := "normal"
  settings_dryerTemp := none
  settings_soil := "medium"
  settings_washerTemp := some "warm"
  stackItems := none
  stickerNumber := 7
  timeRemaining := 0
  machineType := "washer"
  lastUser := "Unknown"

/-- A snapshot of `W1` carrying a physically impossible negative
remaining time. -/
def snapNeg : Snapshot := { baseSnap with timeRemaining := -1 }

/-- Snapshot of `W1` at 45 minutes remaining, attributed to Alice. -/
def snap45A : Snapshot := { baseSnap with timeRemaining := 45, lastUser := "Alice" }

/-- Snapshot of `W1` at 40 minutes remaining, attributed to Alice. -/
def snap40A : Snapshot := { baseSnap with timeRemaining := 40, lastUser := "Alice" }

/-- Snapshot of `W1` at 40 minutes remaining whose other attributes
(`mode`, `doorClosed`, attribution) differ from `snap40A`. -/
def snap40B : Snapshot :=
  { baseSnap with
      timeRemaining := 40, mode := "running", doorClosed := false,
      lastUser := "Bob" }

/-- Snapshot of `W1` at 10 minutes remaining. -/
def snap10 : Snapshot := { baseSnap with timeRemaining := 10 }

/-- Replacing, in a list, every element satisfying `p` by a fixed element
`nr` that itself satisfies `p` moves the first `p`-hit to `nr`.  This is
how `update(...).where(opaqueId == id)` relates to a subsequent
`get_or_none(opaqueId == id)`. -/
theorem find?_map_update {α : Type} (p : α → Bool) (nr : α) (hnr : p nr = true)
    (l : List α) (x : α) (hx : l.find? p = some x) :
    (l.map (fun a => if p a then nr else a)).find? p = some nr := by
  induction l with
  | nil => simp [List.find?] at hx
  | cons h t ih =>
    cases hph : p h with
    | true => simp [List.find?, hph, hnr]
    | false =>
      simp only [List.find?, hph] at hx
      simpa [List.find?, hph] using ih hx

/-- The update branch of `Machine.claim`: with an existing row and a
differing `timeRemaining`, the call rewrites every row keyed by the
snapshot's `opaqueId` from the snapshot (with the attribution rule
applied to `lastUser`) and returns `True`. -/
theorem claim_update_eq (store : List MachineRecord) (data : Snapshot)
    (now : Nat) (existing : MachineRecord)
    (h1 : store.find? (fun r => r.opaqueId == data.opaqueId) = some existing)
    (h2 : data.timeRemaining ≠ existing.timeRemaining) :
    Machine.claim store data now =
      (store.map (fun r =>
          if r.opaqueId == data.opaqueId then
            data.toRecord now
              (some (if data.timeRemaining - existing.timeRemaining > 5
                then "Unknown" else data.lastUser))
          else r),
       Except.ok true) := by
  have hb : (data.timeRemaining != existing.timeRemaining) = true :=
    bne_iff_ne.mpr h2
  simp [Machine.claim, h1, hb]

/-- Any heuristic attribution computed in the update branch keys the
rewritten row by the snapshot's own `opaqueId`. -/
theorem toRecord_opaqueId_beq (data : Snapshot) (now : Nat)
    (lu : Option String) :
    ((data.toRecord now lu).opaqueId == data.opaqueId) = true := by
  simp [Snapshot.toRecord]

/-- C2: reconciling a snapshot whose `timeRemaining` differs from the
stored one stores `lastUser = "Unknown"` when the rise exceeds 5 and the
snapshot's own attribution otherwise. -/
theorem C2_attribution_rule (store : List MachineRecord) (data : Snapshot)
    (now : Nat) (existing : MachineRecord)
    (h1 : store.find? (fun r => r.opaqueId == data.opaqueId) = some existing)
    (h2 : data.timeRemaining ≠ existing.timeRemaining) :
    ((Machine.claim store data now).1.find?
        (fun r => r.opaqueId == data.opaqueId)).map (fun r => r.lastUser) =
      some (some (if data.timeRemaining - existing.timeRemaining > 5
        then "Unknown" else data.lastUser)) := by
  have hfind := find?_map_update (fun r => r.opaqueId == data.opaqueId)
    (data.toRecord now (some (if data.timeRemaining - existing.timeRemaining > 5
      then "Unknown" else data.lastUser)))
    (toRecord_opaqueId_beq data now _) store existing h1
  have hfst : (Machine.claim store data now).1 =
      store.map (fun r =>
        if r.opaqueId == data.opaqueId then
          data.toRecord now
            (some (if data.timeRemaining - existing.timeRemaining > 5
              then "Unknown" else data.lastUser))
        else r) := by
    rw [claim_update_eq store data now existing h1 h2]
  rw [hfst, hfind]
  rfl

/-- C2 witness: a stored `W1` at `timeRemaining = 0` and a snapshot at
`timeRemaining = 45` attributed to `"Alice"`: the rise of 45 exceeds 5,
so the stored attribution is the sentinel. -/
theorem C2_attribution_rule_witness :
    ((Machine.claim [baseSnap.toRecord 100 (some "Unknown")] snap45A 200).1.find?
        (fun r => r.opaqueId == snap45A.opaqueId)).map (fun r => r.lastUser) =
      some (some "Unknown") := by
  have h := C2_attribution_rule [baseSnap.toRecord 100 (some "Unknown")]
    snap45A 200 (baseSnap.toRecord 100 (some "Unknown")) (by decide) (by decide)
  simpa using h

/-- C3: a snapshot whose `timeRemaining` equals the stored one exactly is
a no-op: the store is returned untouched (so no column, `lastUpdated`
included, is written) and `claim` returns `False`. -/
theorem C3_noop_on_equal_timeRemaining (store : List MachineRecord)
    (data : Snapshot) (now : Nat) (existing : MachineRecord)
    (h1 : store.find? (fun r => r.opaqueId == data.opaqueId) = some existing)
    (h2 : data.timeRemaining = existing.timeRemaining) :
    Machine.claim store data now = (store, Except.ok false) := by
  simp [Machine.claim, h1, h2]

/-- C3 witness: the stored `W1` sits at `timeRemaining = 40`; a snapshot
with the same `timeRemaining` but a different `mode`, `doorClosed` and
attribution leaves the store exactly as it was and returns `False`. -/
theorem C3_noop_witness :
    Machine.claim [snap40A.toRecord 300 (some "Alice")] snap40B 400 =
      ([snap40A.toRecord 300 (some "Alice")], Except.ok false) :=
  C3_noop_on_equal_timeRemaining _ _ 400 (snap40A.toRecord 300 (some "Alice"))
    (by decide) (by decide)

/-- C4 counterexample: a first-sighting snapshot with
`timeRemaining = -1` does not create a record and does not return
`Applied`: the `create` validation raises, so as stated over *every*
snapshot the creation claim is false. -/
theorem C4_counterexample :
    ([] : List MachineRecord).find? (fun r => r.opaqueId == snapNeg.opaqueId) =
        none ∧
      Machine.claim [] snapNeg 100 =
        ([], Except.error "timeRemaining cannot be negative") := by decide

/-- C4 (amended with `0 ≤ timeRemaining`, which the counterexample
forces): a snapshot whose `opaqueId` has no row and whose
`timeRemaining` is non-negative is appended verbatim as a new row with
`lastUpdated` the reconciliation time and `lastUser` the sentinel
`"Unknown"` (whatever attribution the snapshot carried), and `claim`
returns `True`. -/
theorem C4_first_sighting (store : List MachineRecord) (data : Snapshot)
    (now : Nat)
    (h1 : store.find? (fun r => r.opaqueId == data.opaqueId) = none)
    (h2 : 0 ≤ data.timeRemaining) :
    Machine.claim store data now =
        (store ++ [data.toRecord now (some "Unknown")], Except.ok true) ∧
      (data.toRecord now (some "Unknown")).lastUser = some "Unknown" ∧
      (data.toRecord now (some "Unknown")).lastUpdated = now := by
  refine ⟨?_, rfl, rfl⟩
  have hc : Machine.createCheck (some data.timeRemaining) = false := by
    simp [Machine.createCheck]
    omega
  simp [Machine.claim, h1, hc]

/-- C4 witness: the first-ever snapshot of `W1` (attributed to
`"Unknown"` by nobody in particular, `timeRemaining = 0`) creates the
row with the sentinel attribution and the call's timestamp. -/
theorem C4_first_sighting_witness :
    Machine.claim [] baseSnap 100 =
        ([baseSnap.toRecord 100 (some "Unknown")], Except.ok true) ∧
      (baseSnap.toRecord 100 (some "Unknown")).lastUser = some "Unknown" ∧
      (baseSnap.toRecord 100 (some "Unknown")).lastUpdated = 100 :=
  C4_first_sighting [] baseSnap 100 (by decide) (by decide)

/-- C5 counterexample: the update path does not overwrite *every*
mutable column with the snapshot's value.  A stored `W1` at
`timeRemaining = 0` reconciled with `snap45A` (rise of 45, attributed
to `"Alice"`) stores `lastUser = "Unknown"`, not the snapshot's own
`"Alice"`. -/
theorem C5_counterexample :
    snap45A.lastUser = "Alice" ∧
      (Machine.claim [baseSnap.toRecord 100 (some "Unknown")] snap45A 200).1.map
          (fun r => r.lastUser) =
        [some "Unknown"] := by decide

/-- C5 (amended: every mutable column except `lastUser` comes from the
snapshot; `lastUser` follows the attribution rule — the snapshot's own
value unless the rise exceeds 5, in which case the sentinel): with an
existing row and a differing `timeRemaining`, the row keyed by the
snapshot's `opaqueId` after the call is rebuilt in full from the
snapshot (`Snapshot.toRecord` copies every mutable column verbatim)
with `lastUpdated = now`, and `claim` returns `True`. -/
theorem C5_full_update (store : List MachineRecord) (data : Snapshot)
    (now : Nat) (existing : MachineRecord)
    (h1 : store.find? (fun r => r.opaqueId == data.opaqueId) = some existing)
    (h2 : data.timeRemaining ≠ existing.timeRemaining) :
    (Machine.claim store data now).2 = Except.ok true ∧
      (Machine.claim store data now).1.find?
          (fun r => r.opaqueId == data.opaqueId) =
        some (data.toRecord now
          (some (if data.timeRemaining - existing.timeRemaining > 5
            then "Unknown" else data.lastUser))) ∧
      (data.toRecord now
          (some (if data.timeRemaining - existing.timeRemaining > 5
            then "Unknown" else data.lastUser))).lastUpdated = now := by
  refine ⟨?_, ?_, rfl⟩
  · rw [claim_update_eq store data now existing h1 h2]
  · have hfind := find?_map_update (fun r => r.opaqueId == data.opaqueId)
      (data.toRecord now (some (if data.timeRemaining - existing.timeRemaining > 5
        then "Unknown" else data.lastUser)))
      (toRecord_opaqueId_beq data now _) store existing h1
    have hfst : (Machine.claim store data now).1 =
        store.map (fun r =>
          if r.opaqueId == data.opaqueId then
            data.toRecord now
              (some (if data.timeRemaining - existing.timeRemaining > 5
                then "Unknown" else data.lastUser))
          else r) := by
      rw [claim_update_eq store data now existing h1 h2]
    rw [hfst, hfind]

/-- C5 witness: a stored `W1` at `timeRemaining = 45` reconciled with
`snap40A` (a drop of 5, attributed to `"Alice"`) is rewritten in full
from the snapshot, keeping Alice's attribution, with
`lastUpdated = 300`. -/
theorem C5_full_update_witness :
    (Machine.claim [snap45A.toRecord 200 (some "Unknown")] snap40A 300).2 =
        Except.ok true ∧
      (Machine.claim [snap45A.toRecord 200 (some "Unknown")] snap40A 300).1.find?
          (fun r => r.opaqueId == snap40A.opaqueId) =
        some (snap40A.toRecord 300
          (some (if snap40A.timeRemaining -
              (snap45A.toRecord 200 (some "Unknown")).timeRemaining > 5
            then "Unknown" else snap40A.lastUser))) ∧
      (snap40A.toRecord 300
          (some (if snap40A.timeRemaining -
              (snap45A.toRecord 200 (some "Unknown")).timeRemaining > 5
            then "Unknown" else snap40A.lastUser))).lastUpdated = 300 :=
  C5_full_update [snap45A.toRecord 200 (some "Unknown")] snap40A 300
    (snap45A.toRecord 200 (some "Unknown")) (by decide) (by decide)

/-- C1: the non-negativity invariant is *not* enforced on the update
path.  With `W1` stored at `timeRemaining = 10`, the snapshot `snapNeg`
(`timeRemaining = -1`) takes the update branch of `Machine.claim`;
`update(**data)` bypasses the `save`/`create` validation, so the call
returns `True` and the store now holds a row with
`timeRemaining = -1` — a row that `Machine.save`'s own check would have
rejected. -/
theorem C1_negative_update_written :
    (Machine.claim [snap10.toRecord 50 (some "Bob")] snapNeg 60).2 =
        Except.ok true ∧
      (Machine.claim [snap10.toRecord 50 (some "Bob")] snapNeg 60).1 =
        [snapNeg.toRecord 60 (some "Unknown")] ∧
      (snapNeg.toRecord 60 (some "Unknown")).timeRemaining = -1 ∧
      Machine.save (snapNeg.toRecord 60 (some "Unknown")) =
        Except.error "timeRemaining cannot be negative" := by decide

/-- C6: the end-to-end trace of one `opaqueId`.  Starting from an empty
store: `baseSnap` (`timeRemaining = 0`) creates the row with the
sentinel attribution; `snap45A` (rise of 45, attributed to Alice) is
applied with `lastUser = "Unknown"` and `timeRemaining = 45`; `snap40A`
(drop of 5, attributed to Alice) is applied with `lastUser = "Alice"`;
a repeat of `snap40A` is a no-op and `lastUpdated` stays at 300. -/
theorem C6_end_to_end :
    Machine.claim [] baseSnap 100 =
        ([baseSnap.toRecord 100 (some "Unknown")], Except.ok true) ∧
      (baseSnap.toRecord 100 (some "Unknown")).lastUser = some "Unknown" ∧
      (baseSnap.toRecord 100 (some "Unknown")).timeRemaining = 0 ∧
      Machine.claim [baseSnap.toRecord 100 (some "Unknown")] snap45A 200 =
        ([snap45A.toRecord 200 (some "Unknown")], Except.ok true) ∧
      (snap45A.toRecord 200 (some "Unknown")).lastUser = some "Unknown" ∧
      (snap45A.toRecord 200 (some "Unknown")).timeRemaining = 45 ∧
      Machine.claim [snap45A.toRecord 200 (some "Unknown")] snap40A 300 =
        ([snap40A.toRecord 300 (some "Alice")], Except.ok true) ∧
      (snap40A.toRecord 300 (some "Alice")).lastUser = some "Alice" ∧
      Machine.claim [snap40A.toRecord 300 (some "Alice")] snap40A 400 =
        ([snap40A.toRecord 300 (some "Alice")], Except.ok false) ∧
      (snap40A.toRecord 300 (some "Alice")).lastUpdated = 300 := by decide

/-- C7: whenever `Machine.claim` surfaces an error (the store-level
rejection of a write), the store after the call is exactly the store
before it: the failed reconciliation is not partially applied. -/
theorem C7_error_leaves_store_unchanged (store : List MachineRecord)
    (data : Snapshot) (now : Nat) (e : String)
    (h : (Machine.claim store data now).2 = Except.error e) :
    (Machine.claim store data now).1 = store := by
  rcases hf : store.find? (fun r => r.opaqueId == data.opaqueId) with _ | existing
  · cases hc : Machine.createCheck (some data.timeRemaining) with
    | true => simp [Machine.claim, hf, hc]
    | false => simp [Machine.claim, hf, hc] at h
  · cases hne : (data.timeRemaining != existing.timeRemaining) with
    | true => simp [Machine.claim, hf, hne] at h
    | false => simp [Machine.claim, hf, hne] at h

/-- C7 witness: the rejected first-sighting write of `snapNeg` surfaces
`ValueError("timeRemaining cannot be negative")` and leaves the empty
store empty. -/
theorem C7_error_leaves_store_unchanged_witness :
    (Machine.claim [] snapNeg 100).1 = [] :=
  C7_error_leaves_store_unchanged [] snapNeg 100
    "timeRemaining cannot be negative" (by decide)

/-- C9: the pre-write validation of `Machine.create` fires exactly when
the keyword dictionary holds a `timeRemaining` key with a negative
value; an absent key falls back to `0` and is accepted. -/
theorem C9_createCheck_iff (t : Option Int) :
    (Machine.createCheck t = true ↔ ∃ v, t = some v ∧ v < 0) ∧
      Machine.createCheck none = false := by
  constructor
  · cases t with
    | none => simp [Machine.createCheck]
    | some v => simp [Machine.createCheck]
  · simp [Machine.createCheck]

/-- C10: for every room directory content and every requested page
number (negative and past-the-end included), `RoomSelect.__init__`
keeps its page index in bounds — `total_pages` is at least 1 and the
displayed `current_page` satisfies `0 ≤ current_page ≤ total_pages - 1`
— and the options shown are exactly the rooms of that page's slice of
at most 25 entries, with the disabled `"No rooms available"`
placeholder exactly when the slice is empty. -/
theorem C10_pagination_in_bounds (rooms : List RoomRow) (page : Int) :
    1 ≤ (RoomSelect.initState rooms page).total_pages ∧
      0 ≤ (RoomSelect.initState rooms page).current_page ∧
      (RoomSelect.initState rooms page).current_page ≤
        ((RoomSelect.initState rooms page).total_pages : Int) - 1 ∧
      (RoomSelect.initState rooms page).options =
        (if ((rooms.drop
              ((RoomSelect.initState rooms page).current_page.toNat * 25)).take
                25).isEmpty
          then [⟨"No rooms available", "none"⟩]
          else ((rooms.drop
              ((RoomSelect.initState rooms page).current_page.toNat * 25)).take
                25).map (fun room => ⟨room.label, room.roomId⟩)) ∧
      (RoomSelect.initState rooms page).options.length ≤ 25 ∧
      (RoomSelect.initState rooms page).disabled =
        ((rooms.drop
            ((RoomSelect.initState rooms page).current_page.toNat * 25)).take
              25).isEmpty := by
  have htp : (RoomSelect.initState rooms page).total_pages =
      max ((rooms.length + 24) / 25) 1 := rfl
  have hcp : (RoomSelect.initState rooms page).current_page =
      max 0 (min page (((max ((rooms.length + 24) / 25) 1 : Nat) : Int) - 1)) :=
    rfl
  have h1 : 1 ≤ (RoomSelect.initState rooms page).total_pages := by
    rw [htp]; exact le_max_right _ _
  have h0 : 0 ≤ (RoomSelect.initState rooms page).current_page := by
    rw [hcp]; exact le_max_left _ _
  have hub : (RoomSelect.initState rooms page).current_page ≤
      ((RoomSelect.initState rooms page).total_pages : Int) - 1 := by
    rw [hcp, htp]
    have hge : (1 : Int) ≤ ((max ((rooms.length + 24) / 25) 1 : Nat) : Int) := by
      exact_mod_cast le_max_right ((rooms.length + 24) / 25) 1
    exact max_le (by omega) (min_le_right _ _)
  have hmul : ((RoomSelect.initState rooms page).current_page *
        (25 : Int)).toNat =
      (RoomSelect.initState rooms page).current_page.toNat * 25 := by
    have h0' := h0
    generalize (RoomSelect.initState rooms page).current_page = c at h0' ⊢
    omega
  refine ⟨h1, h0, hub, ?_, ?_, ?_⟩
  · show (if ((rooms.drop ((RoomSelect.initState rooms page).current_page *
            (25 : Int)).toNat).take 25).isEmpty
        then [(⟨"No rooms available", "none"⟩ : SelectOption)]
        else ((rooms.drop ((RoomSelect.initState rooms page).current_page *
            (25 : Int)).toNat).take 25).map
          (fun room => ⟨room.label, room.roomId⟩)) = _
    rw [hmul]
  · show (if ((rooms.drop ((RoomSelect.initState rooms page).current_page *
            (25 : Int)).toNat).take 25).isEmpty
        then [(⟨"No rooms available", "none"⟩ : SelectOption)]
        else ((rooms.drop ((RoomSelect.initState rooms page).current_page *
            (25 : Int)).toNat).take 25).map
          (fun room => ⟨room.label, room.roomId⟩)).length ≤ 25
    by_cases he : ((rooms.drop ((RoomSelect.initState rooms page).current_page *
        (25 : Int)).toNat).take 25).isEmpty
    · simp [he]
    · rw [if_neg he]
      simp only [List.length_map, List.length_take]
      omega
  · show ((rooms.drop ((RoomSelect.initState rooms page).current_page *
        (25 : Int)).toNat).take 25).isEmpty = _
    rw [hmul]
